import Mathlib

/-!
Shallow embedding of `src/xslt.c` (go-xslt C wrapper around libxml2/libxslt).

The wrapper's own logic is control flow and resource management around an
external engine (libxml2 parsing, libxslt compilation/transform/serialization).
The engine is modelled as a structure of oracle functions; the wrapper
functions (`apply_style`, `make_style`, `xslt`, `make_param_array`,
`set_param`) are translated line by line into pure Lean functions that thread
the one piece of shared mutable state (the process-wide pending parser-error
slot) and record, per call, which heap resources are still allocated when the
call returns and which caller-owned slots were written.
-/

namespace Xslt

/-- `INT32_MAX` from `<stdint.h>`. -/
def INT32_MAX : Nat := 2 ^ 31 - 1

/-- An opaque document tree (`xmlDocPtr`), identified by a number. -/
abbrev Tree := Nat

/-- An opaque compiled stylesheet handle (`xsltStylesheetPtr`), identified by a number. -/
abbrev Style := Nat

/-- An opaque parameter table pointer (`const char **params`) as passed through
to the engine; `apply_style` never inspects it. -/
abbrev PTable := Nat

/-- A C source text as seen by this wrapper: the code only ever takes its
`strlen` and hands the pointer to the engine, so the model carries the byte
length and the oracle functions are keyed on the whole value. -/
structure CText where
  len : Nat
deriving DecidableEq

/-- The external libxml2/libxslt engine, as a family of oracles.

* `parse` models `xmlParseMemory`: returns the parsed tree (or `none`) and
  whether the call raised a parser error into the process-wide last-error
  slot.
* `transform` models `xsltApplyStylesheet`.
* `serialize` models `xsltSaveResultToString`: a status (`0` on success),
  the engine-allocated output buffer (or `none` when it allocates nothing),
  and the byte length it stores through the length out-parameter.
* `compileStyle` models `xsltParseStylesheetDoc`: on producing a handle it
  also reports the handle's internal error counter (`style->errors`). -/
structure Engine where
  parse : CText → Option Tree × Bool
  transform : Style → Tree → PTable → Option Tree
  serialize : Tree → Style → Int × Option (List Nat) × Nat
  compileStyle : Tree → Option (Style × Nat)

/-- The caller-visible mutable state around a call to `apply_style`:
the pending parser-error slot, and the contents of the caller's
`*xml_txt` and `*xml_txt_len` locations before the call. -/
structure ApplyState where
  errSlot : Bool
  xmlTxt : Option (List Nat)
  xmlTxtLen : Nat
deriving DecidableEq

/-- Result of a call to `apply_style`: the returned `int`, the final state of
the pending parser-error slot and of the caller's two out-locations, whether
`*xml_txt` was written, whether the input tree / result tree / engine output
buffer are still allocated at return (true on a path that never frees them),
and whether a parse was attempted at all. -/
structure ApplyOut where
  ret : Int
  errSlot : Bool
  xmlTxt : Option (List Nat)
  xmlTxtLen : Nat
  wroteXmlTxt : Bool
  liveXmlDoc : Bool
  liveResult : Bool
  liveEngineBuf : Bool
  parsed : Bool
deriving DecidableEq

/-- `strncpy(dest, src, n)` as it acts on the destination buffer: copy bytes
of `src` up to the first NUL or `n` bytes, then pad with NUL up to `n`. -/
def strncpyBytes (src : List Nat) (n : Nat) : List Nat :=
  let copied := (src.takeWhile fun b => b != 0).take n
  copied ++ List.replicate (n - copied.length) 0

/-- `apply_style` from `src/xslt.c` lines 25-65, translated step by step:
length guard against `INT32_MAX`, `xmlParseMemory` plus the
`xml_doc == NULL || xmlGetLastError()` check with `xmlResetLastError()`,
`xsltApplyStylesheet`, `xsltSaveResultToString`, the guarded
`malloc`/`strncpy`/`xmlFree`, the two `xmlFreeDoc` calls, `return ok`.

The pending slot after the parse is the entry slot OR the error the parse
raised (libxml2 does not clear the slot on a successful parse). -/
def apply_style (E : Engine) (style : Style) (xml : CText) (params : PTable)
    (st : ApplyState) : ApplyOut :=
  if xml.len > INT32_MAX then
    -- `return -1` before any parse; nothing allocated, nothing reset
    { ret := -1, errSlot := st.errSlot, xmlTxt := st.xmlTxt,
      xmlTxtLen := st.xmlTxtLen, wroteXmlTxt := false, liveXmlDoc := false,
      liveResult := false, liveEngineBuf := false, parsed := false }
  else
    match E.parse xml with
    | (docOpt, raised) =>
      match docOpt with
      | none =>
        -- `xml_doc == NULL`: reset the slot, `return -1`
        { ret := -1, errSlot := false, xmlTxt := st.xmlTxt,
          xmlTxtLen := st.xmlTxtLen, wroteXmlTxt := false, liveXmlDoc := false,
          liveResult := false, liveEngineBuf := false, parsed := true }
      | some _doc =>
        -- `xmlGetLastError()`: entry slot still pending, or the parse raised
        if st.errSlot || raised then
          -- `xmlGetLastError()` non-NULL: reset and `return -1`;
          -- NOTE the code does not free `xml_doc` here, so the tree leaks
          { ret := -1, errSlot := false, xmlTxt := st.xmlTxt,
            xmlTxtLen := st.xmlTxtLen, wroteXmlTxt := false,
            liveXmlDoc := true, liveResult := false, liveEngineBuf := false,
            parsed := true }
        else
          match E.transform style _doc params with
          | none =>
            -- no result tree: `xmlFreeDoc(xml_doc); return -1`
            { ret := -1, errSlot := false, xmlTxt := st.xmlTxt,
              xmlTxtLen := st.xmlTxtLen, wroteXmlTxt := false,
              liveXmlDoc := false, liveResult := false, liveEngineBuf := false,
              parsed := true }
          | some result =>
            match E.serialize result style with
            | (ok, bufOpt, n) =>
              -- the engine wrote `n` through the length out-parameter
              if ok = 0 ∧ 0 < n then
                -- `*xml_txt = malloc(n); strncpy(...); xmlFree(xml_output)`
                { ret := ok, errSlot := false,
                  xmlTxt := some (strncpyBytes (bufOpt.getD []) n),
                  xmlTxtLen := n, wroteXmlTxt := true, liveXmlDoc := false,
                  liveResult := false, liveEngineBuf := false, parsed := true }
              else
                -- no copy, no `xmlFree(xml_output)`; both trees freed
                { ret := ok, errSlot := false, xmlTxt := st.xmlTxt,
                  xmlTxtLen := n, wroteXmlTxt := false, liveXmlDoc := false,
                  liveResult := false, liveEngineBuf := bufOpt.isSome,
                  parsed := true }

/-- Result of a call to `make_style`: the returned `int`, the final pending
parser-error slot, whether the caller's `*style` location was written and
with what, whether the stylesheet source tree is still allocated at return
without having been freed or handed (inside the handle) to the caller, whether
a stylesheet handle is still allocated at return (on success this is the
product handed to the caller; on a failure return it is a leak), and whether
a parse was attempted. -/
structure MakeOut where
  ret : Int
  errSlot : Bool
  styleWritten : Bool
  styleVal : Option Style
  liveStyleDoc : Bool
  liveHandle : Bool
  parsed : Bool
deriving DecidableEq

/-- `make_style` from `src/xslt.c` lines 91-114: length guard,
`xmlParseMemory` plus the error check with `xmlResetLastError()`,
`xsltParseStylesheetDoc`, the `*style == NULL || (*style)->errors` check with
`xmlFreeDoc(style_doc)`, `return 0`.

On success the style document's ownership is inside the produced handle
(see the comment at `free_style` in the source), so `liveStyleDoc := false`
there.  In the non-zero-error-count branch the code frees `style_doc` but
never calls `xsltFreeStylesheet`, so the handle stays allocated. -/
def make_style (E : Engine) (xsl : CText) (errSlot : Bool) : MakeOut :=
  if xsl.len > INT32_MAX then
    { ret := -1, errSlot := errSlot, styleWritten := false, styleVal := none,
      liveStyleDoc := false, liveHandle := false, parsed := false }
  else
    match E.parse xsl with
    | (docOpt, raised) =>
      match docOpt with
      | none =>
        { ret := -1, errSlot := false, styleWritten := false, styleVal := none,
          liveStyleDoc := false, liveHandle := false, parsed := true }
      | some _doc =>
        if errSlot || raised then
          -- NOTE the code does not free `style_doc` here, so the tree leaks
          { ret := -1, errSlot := false, styleWritten := false,
            styleVal := none, liveStyleDoc := true, liveHandle := false,
            parsed := true }
        else
          match E.compileStyle _doc with
          | none =>
            -- `*style = NULL`, then `xmlFreeDoc(style_doc); return -1`
            { ret := -1, errSlot := false, styleWritten := true,
              styleVal := none, liveStyleDoc := false, liveHandle := false,
              parsed := true }
          | some (h, errs) =>
            if errs ≠ 0 then
              -- `*style` holds the handle; the code frees the style document
              -- out from under it and returns -1 WITHOUT releasing the handle
              { ret := -1, errSlot := false, styleWritten := true,
                styleVal := some h, liveStyleDoc := false, liveHandle := true,
                parsed := true }
            else
              { ret := 0, errSlot := false, styleWritten := true,
                styleVal := some h, liveStyleDoc := false, liveHandle := true,
                parsed := true }

/-- Result of a call to the facade `xslt`: returned `int`, final pending slot
and caller out-locations, whether `apply_style` was invoked, and whether
`free_style` released the compiled handle before returning. -/
structure XsltOut where
  ret : Int
  errSlot : Bool
  xmlTxt : Option (List Nat)
  xmlTxtLen : Nat
  wroteXmlTxt : Bool
  applied : Bool
  handleReleased : Bool
deriving DecidableEq

/-- `xslt` from `src/xslt.c` lines 129-145: `make_style`; on `ok < 0` return
`-1`; otherwise `apply_style`, then `free_style` unconditionally, and return
the applier's status. -/
def xslt (E : Engine) (xsl xml : CText) (params : PTable)
    (st : ApplyState) : XsltOut :=
  let m := make_style E xsl st.errSlot
  if m.ret < 0 then
    { ret := -1, errSlot := m.errSlot, xmlTxt := st.xmlTxt,
      xmlTxtLen := st.xmlTxtLen, wroteXmlTxt := false, applied := false,
      handleReleased := false }
  else
    let a := apply_style E (m.styleVal.getD 0) xml params
      { errSlot := m.errSlot, xmlTxt := st.xmlTxt, xmlTxtLen := st.xmlTxtLen }
    { ret := a.ret, errSlot := a.errSlot, xmlTxt := a.xmlTxt,
      xmlTxtLen := a.xmlTxtLen, wroteXmlTxt := a.wroteXmlTxt, applied := true,
      handleReleased := true }

/-- `make_param_array` from `src/xslt.c` lines 160-164: `calloc` zeroes all
`2*n+1` pointer slots, then `a[2*n] = NULL` is stored again explicitly. -/
def make_param_array (n : Nat) : List (Option String) :=
  (List.replicate (2 * n + 1) none).set (2 * n) none

/-- `set_param` from `src/xslt.c` lines 166-169: `a[2*t] = n; a[2*t+1] = v`. -/
def set_param (a : List (Option String)) (nm v : String) (t : Nat) :
    List (Option String) :=
  (a.set (2 * t) (some nm)).set (2 * t + 1) (some v)

/-- A sequence of `set_param` calls `(name, value, index)` applied in order. -/
def runSetParams : List (Option String) → List (String × String × Nat) →
    List (Option String)
  | a, [] => a
  | a, op :: ops => runSetParams (set_param a op.1 op.2.1 op.2.2) ops

/-! ### Concrete engines used to instantiate the theorems -/

/-- A well-behaved engine: parsing succeeds with no error, the transform
produces a tree, serialization succeeds with three non-NUL bytes, and
compilation yields a handle with a zero error counter. -/
def okEngine : Engine where
  parse := fun _ => (some 1, false)
  transform := fun _ _ _ => some 2
  serialize := fun _ _ => (0, some [60, 97, 62], 3)
  compileStyle := fun _ => some (4, 0)

/-- An engine whose parser returns a document tree while also raising a
parser error into the pending slot (libxml2 does this for recoverable
errors, e.g. namespace problems). -/
def pendingErrEngine : Engine where
  parse := fun _ => (some 1, true)
  transform := fun _ _ _ => none
  serialize := fun _ _ => (0, none, 0)
  compileStyle := fun _ => none

/-- An engine whose parser succeeds cleanly but whose stylesheet compiler
produces a handle carrying a non-zero internal error count. -/
def errCountEngine : Engine where
  parse := fun _ => (some 1, false)
  transform := fun _ _ _ => none
  serialize := fun _ _ => (0, none, 0)
  compileStyle := fun _ => some (5, 7)

/-- An engine whose transform step produces no result tree. -/
def noResultEngine : Engine where
  parse := fun _ => (some 1, false)
  transform := fun _ _ _ => none
  serialize := fun _ _ => (0, none, 0)
  compileStyle := fun _ => some (4, 0)

/-- An engine whose serialization step reports a non-zero status. -/
def serialFailEngine : Engine where
  parse := fun _ => (some 1, false)
  transform := fun _ _ _ => some 2
  serialize := fun _ _ => (-1, none, 0)
  compileStyle := fun _ => some (4, 0)

/-- An engine whose serialization succeeds with zero output length and
allocates no buffer. -/
def emptyOutEngine : Engine where
  parse := fun _ => (some 1, false)
  transform := fun _ _ _ => some 2
  serialize := fun _ _ => (0, none, 0)
  compileStyle := fun _ => some (4, 0)

/-- An engine whose serialization succeeds with a byte stream containing
NUL bytes, as a stylesheet-inherited UTF-16 output encoding produces. -/
def nulOutEngine : Engine where
  parse := fun _ => (some 1, false)
  transform := fun _ _ _ => some 2
  serialize := fun _ _ => (0, some [60, 0, 97, 0], 4)
  compileStyle := fun _ => some (4, 0)

/-! ### Helper lemmas -/

/-- Every path of `apply_style` that attempts a parse returns with the
pending parser-error slot reset. -/
theorem apply_style_parsed_slot (E : Engine) (style : Style) (xml : CText)
    (params : PTable) (st : ApplyState) :
    (apply_style E style xml params st).parsed = true →
    (apply_style E style xml params st).errSlot = false := by
  unfold apply_style
  repeat' split
  all_goals simp_all

/-- The path of `apply_style` that never parses leaves the slot untouched. -/
theorem apply_style_unparsed_slot (E : Engine) (style : Style) (xml : CText)
    (params : PTable) (st : ApplyState) :
    (apply_style E style xml params st).parsed = false →
    (apply_style E style xml params st).errSlot = st.errSlot := by
  unfold apply_style
  repeat' split
  all_goals simp_all

/-- `apply_style` maps an empty entry slot to an empty exit slot. -/
theorem apply_style_slot_empty (E : Engine) (style : Style) (xml : CText)
    (params : PTable) (st : ApplyState) (h : st.errSlot = false) :
    (apply_style E style xml params st).errSlot = false := by
  unfold apply_style
  repeat' split
  all_goals simp_all

/-- Every path of `make_style` that attempts a parse returns with the
pending parser-error slot reset. -/
theorem make_style_parsed_slot (E : Engine) (xsl : CText) (s : Bool) :
    (make_style E xsl s).parsed = true → (make_style E xsl s).errSlot = false := by
  unfold make_style
  repeat' split
  all_goals simp_all

/-- `make_style` maps an empty entry slot to an empty exit slot. -/
theorem make_style_slot_empty (E : Engine) (xsl : CText) (s : Bool)
    (h : s = false) : (make_style E xsl s).errSlot = false := by
  unfold make_style
  repeat' split
  all_goals simp_all

/-- Within the length limit, `apply_style` always reaches the parse step. -/
theorem apply_style_parses (E : Engine) (style : Style) (xml : CText)
    (params : PTable) (st : ApplyState) (h : ¬ xml.len > INT32_MAX) :
    (apply_style E style xml params st).parsed = true := by
  unfold apply_style
  rw [if_neg h]
  repeat' split
  all_goals rfl

/-- Within the length limit, `make_style` always reaches the parse step. -/
theorem make_style_parses (E : Engine) (xsl : CText) (s : Bool)
    (h : ¬ xsl.len > INT32_MAX) : (make_style E xsl s).parsed = true := by
  unfold make_style
  rw [if_neg h]
  repeat' split
  all_goals rfl

/-- Over the length limit, `apply_style` fails before any parse attempt. -/
theorem apply_style_oversize (E : Engine) (style : Style) (xml : CText)
    (params : PTable) (st : ApplyState) (h : xml.len > INT32_MAX) :
    (apply_style E style xml params st).ret = -1 ∧
    (apply_style E style xml params st).parsed = false := by
  unfold apply_style
  rw [if_pos h]
  exact ⟨rfl, rfl⟩

/-- Over the length limit, `make_style` fails before any parse attempt. -/
theorem make_style_oversize (E : Engine) (xsl : CText) (s : Bool)
    (h : xsl.len > INT32_MAX) :
    (make_style E xsl s).ret = -1 ∧ (make_style E xsl s).parsed = false := by
  unfold make_style
  rw [if_pos h]
  exact ⟨rfl, rfl⟩

/-- A clean parse plus a zero-error compile makes `make_style` succeed. -/
theorem make_style_clean_success (E : Engine) (xsl : CText) (d : Tree)
    (hdl : Style) (h : ¬ xsl.len > INT32_MAX)
    (hp : E.parse xsl = (some d, false))
    (hc : E.compileStyle d = some (hdl, 0)) :
    (make_style E xsl false).ret = 0 := by
  simp [make_style, h, hp, hc]

/-- When `apply_style` reaches the serialization step, it returns the
serialization status. -/
theorem apply_style_clean_ret (E : Engine) (style : Style) (xml : CText)
    (params : PTable) (st : ApplyState) (d r : Tree) (s : Int)
    (bufOpt : Option (List Nat)) (n : Nat) (h : ¬ xml.len > INT32_MAX)
    (hslot : st.errSlot = false) (hp : E.parse xml = (some d, false))
    (ht : E.transform style d params = some r)
    (hs : E.serialize r style = (s, bufOpt, n)) :
    (apply_style E style xml params st).ret = s := by
  simp [apply_style, h, hp, hslot, ht, hs]
  split
  · rfl
  · rfl

/-- A byte list without NUL is its own longest NUL-free initial segment. -/
theorem takeWhile_ne_zero : ∀ (bytes : List Nat), (∀ b ∈ bytes, b ≠ 0) →
    (bytes.takeWhile fun b => b != 0) = bytes
  | [], _ => rfl
  | a :: l, hz => by
    have ha : (a != 0) = true := by
      simpa using hz a (List.mem_cons_self a l)
    simp only [List.takeWhile_cons, ha, if_true]
    rw [takeWhile_ne_zero l fun b hb => hz b (List.mem_cons_of_mem a hb)]

/-- `strncpy` copies the engine buffer verbatim when the buffer has no NUL
byte and the reported length is its exact length. -/
theorem strncpyBytes_exact (bytes : List Nat) (hz : ∀ b ∈ bytes, b ≠ 0) :
    strncpyBytes bytes bytes.length = bytes := by
  unfold strncpyBytes
  rw [takeWhile_ne_zero bytes hz, List.take_length]
  simp

/-- `make_style` only ever returns 0 or -1. -/
theorem make_style_ret_cases (E : Engine) (xsl : CText) (s : Bool) :
    (make_style E xsl s).ret = 0 ∨ (make_style E xsl s).ret = -1 := by
  unfold make_style
  repeat' split
  all_goals simp_all

/-- A successful `make_style` wrote a handle into the caller's slot. -/
theorem make_style_success_styleVal (E : Engine) (xsl : CText) (s : Bool)
    (h : (make_style E xsl s).ret = 0) :
    ∃ hdl, (make_style E xsl s).styleVal = some hdl := by
  revert h
  unfold make_style
  repeat' split
  all_goals simp_all

/-! ### Claim theorems -/

/-- C6: a source text whose length equals INT32_MAX passes the length check
of both `make_style` and `apply_style` and proceeds to parsing — succeeding
when the engine parses, compiles and serializes it cleanly — while a source
text one byte longer makes both functions return -1 before any parse
attempt. -/
theorem int32_boundary (E : Engine) (style : Style) (params : PTable)
    (st : ApplyState) (xmlMax xmlOver : CText)
    (hmax : xmlMax.len = INT32_MAX) (hover : xmlOver.len = INT32_MAX + 1) :
    (apply_style E style xmlMax params st).parsed = true ∧
    (make_style E xmlMax st.errSlot).parsed = true ∧
    (apply_style E style xmlOver params st).ret = -1 ∧
    (apply_style E style xmlOver params st).parsed = false ∧
    (make_style E xmlOver st.errSlot).ret = -1 ∧
    (make_style E xmlOver st.errSlot).parsed = false ∧
    (∀ d hdl, st.errSlot = false → E.parse xmlMax = (some d, false) →
      E.compileStyle d = some (hdl, 0) →
      (make_style E xmlMax st.errSlot).ret = 0) ∧
    (∀ d r, st.errSlot = false → E.parse xmlMax = (some d, false) →
      E.transform style d params = some r → (E.serialize r style).1 = 0 →
      (apply_style E style xmlMax params st).ret = 0) := by
  have hm : ¬ xmlMax.len > INT32_MAX := by
    rw [hmax]
    exact lt_irrefl _
  have ho : xmlOver.len > INT32_MAX := by
    rw [hover]
    exact Nat.lt_succ_self _
  refine ⟨apply_style_parses E style xmlMax params st hm,
    make_style_parses E xmlMax st.errSlot hm,
    (apply_style_oversize E style xmlOver params st ho).1,
    (apply_style_oversize E style xmlOver params st ho).2,
    (make_style_oversize E xmlOver st.errSlot ho).1,
    (make_style_oversize E xmlOver st.errSlot ho).2, ?_, ?_⟩
  · intro d hdl hslot hp hc
    rw [hslot]
    exact make_style_clean_success E xmlMax d hdl hm hp hc
  · intro d r hslot hp ht hs
    rcases hser : E.serialize r style with ⟨s, bufOpt, n⟩
    rw [hser] at hs
    rw [apply_style_clean_ret E style xmlMax params st d r s bufOpt n hm hslot hp ht hser]
    exact hs

/-- Witness for C6 at a concrete engine and concrete lengths. -/
theorem int32_boundary_witness :
    (apply_style okEngine 4 ⟨INT32_MAX⟩ 0 ⟨false, none, 0⟩).parsed = true ∧
    (apply_style okEngine 4 ⟨INT32_MAX + 1⟩ 0 ⟨false, none, 0⟩).ret = -1 ∧
    (apply_style okEngine 4 ⟨INT32_MAX + 1⟩ 0 ⟨false, none, 0⟩).parsed = false ∧
    (make_style okEngine ⟨INT32_MAX + 1⟩ false).ret = -1 ∧
    (make_style okEngine ⟨INT32_MAX⟩ false).ret = 0 ∧
    (apply_style okEngine 4 ⟨INT32_MAX⟩ 0 ⟨false, none, 0⟩).ret = 0 := by
  have h := int32_boundary okEngine 4 0 ⟨false, none, 0⟩ ⟨INT32_MAX⟩
    ⟨INT32_MAX + 1⟩ rfl rfl
  exact ⟨h.1, h.2.2.1, h.2.2.2.1, h.2.2.2.2.1,
    h.2.2.2.2.2.2.1 1 4 rfl rfl rfl,
    h.2.2.2.2.2.2.2 1 2 rfl rfl rfl rfl⟩

/-- C7: on every return path of `make_style` and `apply_style` the pending
parser-error slot is clear: every path that attempted a parse has reset it
before returning, and the only path that does not (the length guard) leaves
it exactly as it was, so an already-empty slot stays empty and no stale
parser error can reach a later call. -/
theorem pending_slot_clear_on_return (E : Engine) (style : Style)
    (xsl xml : CText) (params : PTable) (st : ApplyState) :
    ((make_style E xsl st.errSlot).parsed = true →
      (make_style E xsl st.errSlot).errSlot = false) ∧
    ((make_style E xsl st.errSlot).parsed = false →
      (make_style E xsl st.errSlot).errSlot = st.errSlot) ∧
    (st.errSlot = false → (make_style E xsl st.errSlot).errSlot = false) ∧
    ((apply_style E style xml params st).parsed = true →
      (apply_style E style xml params st).errSlot = false) ∧
    ((apply_style E style xml params st).parsed = false →
      (apply_style E style xml params st).errSlot = st.errSlot) ∧
    (st.errSlot = false →
      (apply_style E style xml params st).errSlot = false) := by
  refine ⟨make_style_parsed_slot E xsl st.errSlot, ?_,
    make_style_slot_empty E xsl st.errSlot,
    apply_style_parsed_slot E style xml params st,
    apply_style_unparsed_slot E style xml params st,
    apply_style_slot_empty E style xml params st⟩
  unfold make_style
  repeat' split
  all_goals simp_all

/-- Witness for C7 at a concrete engine whose parse raises an error. -/
theorem pending_slot_clear_on_return_witness :
    (make_style pendingErrEngine ⟨3⟩ false).errSlot = false ∧
    (apply_style pendingErrEngine 4 ⟨3⟩ 0 ⟨false, none, 0⟩).errSlot = false :=
  ⟨(pending_slot_clear_on_return pendingErrEngine 4 ⟨3⟩ ⟨3⟩ 0
      ⟨false, none, 0⟩).2.2.1 rfl,
   (pending_slot_clear_on_return pendingErrEngine 4 ⟨3⟩ ⟨3⟩ 0
      ⟨false, none, 0⟩).2.2.2.2.2 rfl⟩

/-- C9: on every failure path of `apply_style` (oversized input, parse
failure or pending parser error, no result tree, non-zero serialization
status) the caller's `*xml_txt` location is never written and holds exactly
the value it held before the call. -/
theorem apply_style_failure_no_write (E : Engine) (style : Style)
    (xml : CText) (params : PTable) (st : ApplyState)
    (h : (apply_style E style xml params st).ret ≠ 0) :
    (apply_style E style xml params st).xmlTxt = st.xmlTxt ∧
    (apply_style E style xml params st).wroteXmlTxt = false := by
  revert h
  unfold apply_style
  repeat' split
  all_goals simp_all

/-- Witness for C9 at an engine whose transform produces no result tree. -/
theorem apply_style_failure_no_write_witness :
    (apply_style noResultEngine 4 ⟨3⟩ 0 ⟨false, some [9], 5⟩).xmlTxt
        = some [9] ∧
    (apply_style noResultEngine 4 ⟨3⟩ 0 ⟨false, some [9], 5⟩).wroteXmlTxt
        = false :=
  apply_style_failure_no_write noResultEngine 4 ⟨3⟩ 0 ⟨false, some [9], 5⟩
    (by decide)

/-- C8: `apply_style` is deterministic in its inputs — re-running it with the
same program, the same XML text and the same parameter table from the state
the first call left behind (the first call entered with no pending parser
error, as every reachable state has) yields the identical outcome: same
return status and byte-identical output buffer and length. -/
theorem apply_style_deterministic (E : Engine) (style : Style) (xml : CText)
    (params : PTable) (st : ApplyState) (h : st.errSlot = false) :
    apply_style E style xml params
      { errSlot := (apply_style E style xml params st).errSlot,
        xmlTxt := (apply_style E style xml params st).xmlTxt,
        xmlTxtLen := (apply_style E style xml params st).xmlTxtLen } =
      apply_style E style xml params st := by
  by_cases hlen : xml.len > INT32_MAX
  · simp [apply_style, hlen]
  · rcases hp : E.parse xml with ⟨docOpt, raised⟩
    rcases docOpt with _ | d
    · simp [apply_style, hlen, hp]
    · cases raised
      · rcases ht : E.transform style d params with _ | r
        · simp [apply_style, hlen, hp, h, ht]
        · rcases hs : E.serialize r style with ⟨s, bufOpt, n⟩
          by_cases hw : s = 0 ∧ 0 < n
          · simp [apply_style, hlen, hp, h, ht, hs, hw]
          · simp [apply_style, hlen, hp, h, ht, hs, hw]
      · simp [apply_style, hlen, hp, h]

/-- C3 counterexample: a successful call whose serialized bytes are
`[60, 0, 97, 0]` (a NUL-bearing stream, as a stylesheet-inherited UTF-16
output encoding yields) returns success with length 4 and a populated
buffer, but the buffer holds `[60, 0, 0, 0]` — `strncpy` stopped at the
first NUL byte and padded with NUL — so the buffer does not hold exactly
the serialized bytes. -/
theorem apply_style_nul_truncation :
    (apply_style nulOutEngine 4 ⟨3⟩ 0 ⟨false, none, 0⟩).ret = 0 ∧
    (apply_style nulOutEngine 4 ⟨3⟩ 0 ⟨false, none, 0⟩).xmlTxtLen = 4 ∧
    (apply_style nulOutEngine 4 ⟨3⟩ 0 ⟨false, none, 0⟩).wroteXmlTxt
        = true ∧
    (apply_style nulOutEngine 4 ⟨3⟩ 0 ⟨false, none, 0⟩).xmlTxt
        = some [60, 0, 0, 0] ∧
    (apply_style nulOutEngine 4 ⟨3⟩ 0 ⟨false, none, 0⟩).xmlTxt
        ≠ some [60, 0, 97, 0] := by
  decide

/-- C3 (amended): on a successful call to `apply_style` — the parse is
clean, the transform yields a result tree, serialization reports status 0 —
the call returns 0 and both document trees are destroyed; with a positive
reported length the caller's buffer and length are populated, the buffer
holding the serialized bytes as `strncpy` copies them — truncated at the
first NUL byte and NUL-padded to the reported length — hence exactly the
serialized bytes whenever they contain no NUL; with a zero reported length
the caller's output pointer is not written and no buffer is allocated. -/
theorem apply_style_success_contract (E : Engine) (style : Style)
    (xml : CText) (params : PTable) (st : ApplyState) (d r : Tree)
    (bytes : List Nat) (bufOpt : Option (List Nat)) (n : Nat)
    (hlen : ¬ xml.len > INT32_MAX) (hslot : st.errSlot = false)
    (hp : E.parse xml = (some d, false))
    (ht : E.transform style d params = some r)
    (hs : E.serialize r style = (0, bufOpt, n))
    (hbuf : 0 < n → bufOpt = some bytes) :
    (apply_style E style xml params st).ret = 0 ∧
    (apply_style E style xml params st).liveXmlDoc = false ∧
    (apply_style E style xml params st).liveResult = false ∧
    (0 < n → (apply_style E style xml params st).xmlTxt
        = some (strncpyBytes bytes n) ∧
      (apply_style E style xml params st).xmlTxtLen = n ∧
      (apply_style E style xml params st).wroteXmlTxt = true) ∧
    (0 < n → bytes.length = n → (∀ b ∈ bytes, b ≠ 0) →
      (apply_style E style xml params st).xmlTxt = some bytes) ∧
    (n = 0 → (apply_style E style xml params st).xmlTxt = st.xmlTxt ∧
      (apply_style E style xml params st).wroteXmlTxt = false) := by
  by_cases hpos : 0 < n
  · have hne : n ≠ 0 := Nat.pos_iff_ne_zero.mp hpos
    have hmain : (apply_style E style xml params st).xmlTxt
          = some (strncpyBytes bytes n) ∧
        (apply_style E style xml params st).ret = 0 ∧
        (apply_style E style xml params st).xmlTxtLen = n ∧
        (apply_style E style xml params st).wroteXmlTxt = true ∧
        (apply_style E style xml params st).liveXmlDoc = false ∧
        (apply_style E style xml params st).liveResult = false := by
      simp [apply_style, hlen, hp, hslot, ht, hs, hpos, hbuf hpos]
    refine ⟨hmain.2.1, hmain.2.2.2.2.1, hmain.2.2.2.2.2,
      fun _ => ⟨hmain.1, hmain.2.2.1, hmain.2.2.2.1⟩,
      fun _ hn hz => ?_, fun h0 => absurd h0 hne⟩
    rw [hmain.1, ← hn, strncpyBytes_exact bytes hz]
  · have hn0 : n = 0 := Nat.eq_zero_of_not_pos hpos
    simp [apply_style, hlen, hp, hslot, ht, hs, hn0]

/-- Witness for C3 at three concrete engines: positive NUL-free output,
NUL-bearing output truncated by `strncpy`, and the zero-length edge case. -/
theorem apply_style_success_contract_witness :
    (apply_style okEngine 4 ⟨3⟩ 0 ⟨false, none, 0⟩).ret = 0 ∧
    (apply_style okEngine 4 ⟨3⟩ 0 ⟨false, none, 0⟩).xmlTxt
        = some [60, 97, 62] ∧
    (apply_style okEngine 4 ⟨3⟩ 0 ⟨false, none, 0⟩).xmlTxtLen = 3 ∧
    (apply_style okEngine 4 ⟨3⟩ 0 ⟨false, none, 0⟩).liveXmlDoc = false ∧
    (apply_style okEngine 4 ⟨3⟩ 0 ⟨false, none, 0⟩).liveResult = false ∧
    (apply_style nulOutEngine 4 ⟨3⟩ 0 ⟨false, none, 0⟩).xmlTxt
        = some (strncpyBytes [60, 0, 97, 0] 4) ∧
    (apply_style emptyOutEngine 4 ⟨3⟩ 0 ⟨false, some [7], 9⟩).ret = 0 ∧
    (apply_style emptyOutEngine 4 ⟨3⟩ 0 ⟨false, some [7], 9⟩).xmlTxt
        = some [7] ∧
    (apply_style emptyOutEngine 4 ⟨3⟩ 0 ⟨false, some [7], 9⟩).wroteXmlTxt
        = false := by
  have h1 := apply_style_success_contract okEngine 4 ⟨3⟩ 0 ⟨false, none, 0⟩
    1 2 [60, 97, 62] (some [60, 97, 62]) 3 (by decide) rfl rfl rfl rfl
    (fun _ => rfl)
  have h3 := apply_style_success_contract nulOutEngine 4 ⟨3⟩ 0
    ⟨false, none, 0⟩ 1 2 [60, 0, 97, 0] (some [60, 0, 97, 0]) 4 (by decide)
    rfl rfl rfl rfl (fun _ => rfl)
  have h2 := apply_style_success_contract emptyOutEngine 4 ⟨3⟩ 0
    ⟨false, some [7], 9⟩ 1 2 [] none 0 (by decide) rfl rfl rfl rfl
    (fun h => absurd h (by decide))
  exact ⟨h1.1, h1.2.2.2.2.1 (by decide) rfl (by decide),
    (h1.2.2.2.1 (by decide)).2.1, h1.2.1, h1.2.2.1,
    (h3.2.2.2.1 (by decide)).1,
    h2.1, (h2.2.2.2.2.2 rfl).1, (h2.2.2.2.2.2 rfl).2⟩

/-- C4: when serialization reports a non-zero status, `apply_style` returns
that non-zero (failure) status, the caller's output pointer is not
populated, and both document trees are destroyed before returning. -/
theorem apply_style_serialize_failure (E : Engine) (style : Style)
    (xml : CText) (params : PTable) (st : ApplyState) (d r : Tree) (s : Int)
    (bufOpt : Option (List Nat)) (n : Nat) (hlen : ¬ xml.len > INT32_MAX)
    (hslot : st.errSlot = false) (hp : E.parse xml = (some d, false))
    (ht : E.transform style d params = some r)
    (hs : E.serialize r style = (s, bufOpt, n)) (hfail : s ≠ 0) :
    (apply_style E style xml params st).ret = s ∧
    (apply_style E style xml params st).ret ≠ 0 ∧
    (apply_style E style xml params st).wroteXmlTxt = false ∧
    (apply_style E style xml params st).xmlTxt = st.xmlTxt ∧
    (apply_style E style xml params st).liveXmlDoc = false ∧
    (apply_style E style xml params st).liveResult = false := by
  simp [apply_style, hlen, hp, hslot, ht, hs, hfail]

/-- Witness for C4 at a concrete failing serializer. -/
theorem apply_style_serialize_failure_witness :
    (apply_style serialFailEngine 4 ⟨3⟩ 0 ⟨false, some [7], 9⟩).ret ≠ 0 ∧
    (apply_style serialFailEngine 4 ⟨3⟩ 0 ⟨false, some [7], 9⟩).wroteXmlTxt
        = false ∧
    (apply_style serialFailEngine 4 ⟨3⟩ 0 ⟨false, some [7], 9⟩).xmlTxt
        = some [7] ∧
    (apply_style serialFailEngine 4 ⟨3⟩ 0 ⟨false, some [7], 9⟩).liveXmlDoc
        = false ∧
    (apply_style serialFailEngine 4 ⟨3⟩ 0 ⟨false, some [7], 9⟩).liveResult
        = false := by
  have h := apply_style_serialize_failure serialFailEngine 4 ⟨3⟩ 0
    ⟨false, some [7], 9⟩ 1 2 (-1) none 0 (by decide) rfl rfl rfl rfl
    (by decide)
  exact ⟨h.2.1, h.2.2.1, h.2.2.2.1, h.2.2.2.2.1, h.2.2.2.2.2⟩

/-- C5: the facade `xslt` runs the compiler; when compilation fails it
returns -1 without invoking the applier; when compilation succeeds it
invokes the applier on the compiled handle, releases the handle
unconditionally before returning, and returns exactly the applier's
status. -/
theorem xslt_facade (E : Engine) (xsl xml : CText) (params : PTable)
    (st : ApplyState) :
    ((make_style E xsl st.errSlot).ret ≠ 0 →
      (xslt E xsl xml params st).ret = -1 ∧
      (xslt E xsl xml params st).applied = false) ∧
    ((make_style E xsl st.errSlot).ret = 0 →
      (xslt E xsl xml params st).applied = true ∧
      (xslt E xsl xml params st).handleReleased = true ∧
      (∃ hdl, (make_style E xsl st.errSlot).styleVal = some hdl) ∧
      ∀ hdl, (make_style E xsl st.errSlot).styleVal = some hdl →
        (xslt E xsl xml params st).ret =
          (apply_style E hdl xml params
            { errSlot := (make_style E xsl st.errSlot).errSlot,
              xmlTxt := st.xmlTxt, xmlTxtLen := st.xmlTxtLen }).ret) := by
  constructor
  · intro hne
    have hlt : (make_style E xsl st.errSlot).ret < 0 := by
      rcases make_style_ret_cases E xsl st.errSlot with h0 | hm
      · exact absurd h0 hne
      · rw [hm]
        norm_num
    simp only [xslt]
    rw [if_pos hlt]
    exact ⟨rfl, rfl⟩
  · intro h0
    have hnlt : ¬ (make_style E xsl st.errSlot).ret < 0 := by
      rw [h0]
      norm_num
    refine ⟨?_, ?_, make_style_success_styleVal E xsl st.errSlot h0, ?_⟩
    · simp only [xslt]
      rw [if_neg hnlt]
    · simp only [xslt]
      rw [if_neg hnlt]
    · intro hdl hv
      simp only [xslt]
      rw [if_neg hnlt]
      simp [hv]

/-- Witness for C5 at a concrete engine whose compilation succeeds. -/
theorem xslt_facade_witness :
    (xslt okEngine ⟨3⟩ ⟨3⟩ 0 ⟨false, none, 0⟩).applied = true ∧
    (xslt okEngine ⟨3⟩ ⟨3⟩ 0 ⟨false, none, 0⟩).handleReleased = true ∧
    (xslt okEngine ⟨3⟩ ⟨3⟩ 0 ⟨false, none, 0⟩).ret =
      (apply_style okEngine 4 ⟨3⟩ 0 ⟨false, none, 0⟩).ret := by
  have h := (xslt_facade okEngine ⟨3⟩ ⟨3⟩ 0 ⟨false, none, 0⟩).2 (by decide)
  exact ⟨h.1, h.2.1, h.2.2.2 4 (by decide)⟩

/-- C1 (against the code): an engine whose compile step produces a handle
with a non-zero internal error count makes `make_style` report failure, but
the produced handle is still allocated when the call returns — the code
frees the style document directly and never calls `xsltFreeStylesheet` on
the handle it wrote into the caller's slot. -/
theorem make_style_error_count_leaks_handle :
    (make_style errCountEngine ⟨3⟩ false).ret = -1 ∧
    (make_style errCountEngine ⟨3⟩ false).styleVal = some 5 ∧
    (make_style errCountEngine ⟨3⟩ false).liveHandle = true ∧
    (make_style errCountEngine ⟨3⟩ false).liveStyleDoc = false := by
  decide

/-- C2 (against the code): an engine whose parse step returns a document
tree while leaving a pending parser error makes `apply_style` report
failure, but the call returns with the parsed tree still allocated — the
code returns -1 on this path without freeing `xml_doc`. -/
theorem apply_style_pending_error_leaks_doc :
    (apply_style pendingErrEngine 4 ⟨3⟩ 0 ⟨false, none, 0⟩).ret = -1 ∧
    (apply_style pendingErrEngine 4 ⟨3⟩ 0 ⟨false, none, 0⟩).liveXmlDoc
        = true := by
  decide

/-- Witness for C8 at a concrete engine. -/
theorem apply_style_deterministic_witness :
    apply_style okEngine 4 ⟨3⟩ 0
      { errSlot := (apply_style okEngine 4 ⟨3⟩ 0 ⟨false, none, 0⟩).errSlot,
        xmlTxt := (apply_style okEngine 4 ⟨3⟩ 0 ⟨false, none, 0⟩).xmlTxt,
        xmlTxtLen :=
          (apply_style okEngine 4 ⟨3⟩ 0 ⟨false, none, 0⟩).xmlTxtLen } =
      apply_style okEngine 4 ⟨3⟩ 0 ⟨false, none, 0⟩ :=
  apply_style_deterministic okEngine 4 ⟨3⟩ 0 ⟨false, none, 0⟩ rfl

/-- The explicit sentinel store in `make_param_array` stores the value
`calloc` already put there, so the array is just `2*n+1` empty slots. -/
theorem make_param_array_eq (n : Nat) :
    make_param_array n = List.replicate (2 * n + 1) (none : Option String) := by
  unfold make_param_array
  exact List.set_replicate_self

/-- Unfolding equation for a `set_param` sequence. -/
theorem runSetParams_cons (a : List (Option String))
    (op : String × String × Nat) (ops : List (String × String × Nat)) :
    runSetParams a (op :: ops) =
      runSetParams (set_param a op.1 op.2.1 op.2.2) ops := rfl

/-- A sequence of `set_param` calls never changes the array's length. -/
theorem runSetParams_length : ∀ (ops : List (String × String × Nat))
    (a : List (Option String)), (runSetParams a ops).length = a.length
  | [], _ => rfl
  | op :: ops, a => by
    rw [runSetParams_cons, runSetParams_length ops]
    simp [set_param]

/-- A slot whose index differs from `2*t` and `2*t+1` for every `set_param`
call in the sequence keeps its prior contents. -/
theorem runSetParams_untouched : ∀ (ops : List (String × String × Nat))
    (a : List (Option String)) (i : Nat),
    (∀ op ∈ ops, i ≠ 2 * op.2.2 ∧ i ≠ 2 * op.2.2 + 1) →
    (runSetParams a ops)[i]? = a[i]?
  | [], _, _, _ => rfl
  | op :: ops, a, i, h => by
    have h0 := h op (List.mem_cons_self op ops)
    rw [runSetParams_cons, runSetParams_untouched ops _ i
      fun q hq => h q (List.mem_cons_of_mem op hq)]
    rw [set_param, List.getElem?_set_ne (Ne.symm h0.2),
      List.getElem?_set_ne (Ne.symm h0.1)]

/-- C10: `make_param_array n` yields `2*n+1` slots that are all empty, the
last being the NULL sentinel; each `set_param` at an index `t < n` writes
only slots `2*t` and `2*t+1`, so after any sequence of in-bounds `set_param`
calls the length is unchanged, the sentinel slot `2*n` is still empty, and
every slot no call wrote is still empty. -/
theorem param_array_invariant (n : Nat)
    (ops : List (String × String × Nat))
    (hops : ∀ op ∈ ops, op.2.2 < n) :
    (make_param_array n).length = 2 * n + 1 ∧
    (∀ i, i < 2 * n + 1 → (make_param_array n)[i]? = some none) ∧
    (runSetParams (make_param_array n) ops).length = 2 * n + 1 ∧
    (runSetParams (make_param_array n) ops)[2 * n]? = some none ∧
    (∀ i, i < 2 * n + 1 →
      (∀ op ∈ ops, i ≠ 2 * op.2.2 ∧ i ≠ 2 * op.2.2 + 1) →
      (runSetParams (make_param_array n) ops)[i]? = some none) := by
  have hlen : (make_param_array n).length = 2 * n + 1 := by
    rw [make_param_array_eq, List.length_replicate]
  have hall : ∀ i, i < 2 * n + 1 → (make_param_array n)[i]? = some none := by
    intro i hi
    rw [make_param_array_eq]
    exact List.getElem?_replicate_of_lt hi
  refine ⟨hlen, hall, ?_, ?_, ?_⟩
  · rw [runSetParams_length, hlen]
  · rw [runSetParams_untouched ops (make_param_array n) (2 * n) ?side]
    · exact hall (2 * n) (by omega)
    case side =>
      intro op hop
      have := hops op hop
      omega
  · intro i hi hfree
    rw [runSetParams_untouched ops (make_param_array n) i hfree]
    exact hall i hi

/-- Witness for C10 with one tuple set at index 0 of a two-tuple array. -/
theorem param_array_invariant_witness :
    (runSetParams (make_param_array 2) [("a", "b", 0)]).length = 5 ∧
    (runSetParams (make_param_array 2) [("a", "b", 0)])[4]? = some none ∧
    (runSetParams (make_param_array 2) [("a", "b", 0)])[2]? = some none := by
  have h := param_array_invariant 2 [("a", "b", 0)]
    (by intro op hop; simp at hop; rw [hop]; decide)
  refine ⟨h.2.2.1, h.2.2.2.1, ?_⟩
  exact h.2.2.2.2 2 (by decide) (by intro op hop; simp at hop; rw [hop]; decide)

end Xslt
